import Mathlib

/-!
A verification development for `tenper`, a small tmux wrapper with optional
virtualenv support (`tenper.py`).

The program is a sequential orchestrator: it reads a per-environment YAML
configuration and issues a sequence of external commands (tmux, virtualenv,
editor) plus a few filesystem operations.  We embed it shallowly:

* every external command invocation (`run(template, **kwargs)` in the source,
  which goes through `command_list`) becomes an `Action.run` carrying the
  exact argument vector that `subprocess.call` would receive;
* filesystem mutations (`shutil.rmtree`, `os.remove`, `os.rmdir`) and the
  interactive prompts become further `Action` constructors;
* the ambient facts the program observes (does the virtualenv directory
  exist?  did `tmux has-session` report an existing session?) are passed in
  as explicit booleans;
* Python exceptions (KeyError on a missing configuration key, the error
  raised by `shutil.rmtree` on a missing directory) become the error side of
  `Except`;
* YAML dictionaries become structures whose fields are `Option`-valued when
  the source accesses them through `dict.get` or may find them absent
  (`config['session name']` raises KeyError when the key is missing, so the
  field is an `Option` read through `getKey`).

`str.format` is modelled for the fragment the source uses: plain named
fields `{name}` with no escapes, conversions or format specs (the source's
templates contain nothing else).
-/

namespace Tenper

/-! ## Module-level constants (tenper.py lines 18-21)

`configs` and `virtualenvs` are derived from `os.path.expanduser('~')`; the
home directory is abstracted as the literal `~` since no claim depends on
its concrete value, only on paths being built from it. -/

def home : String := "~"

def configs : String := home ++ "/.tenper"

def virtualenvs : String := home ++ "/.virtualenvs"

/-- `os.path.join(a, b)` for a relative second component. -/
def pathJoin (a b : String) : String := a ++ "/" ++ b

/-! ## The `str.format` fragment used by `command_list` -/

/-- Keyword-argument lookup (Python `kwargs[key]`; `none` = KeyError). -/
def lookupKw (kw : List (String × String)) (key : String) : Option String :=
  match kw with
  | [] => none
  | (k, v) :: rest => if k = key then some v else lookupKw rest key

/-- One pass of Python `str.format` over the characters of a template.
`mode = none` means we are copying literal characters; `mode = some acc`
means we are inside a `{...}` replacement field whose name so far is `acc`.
`none` is a format error (unterminated field or missing keyword), which
Python raises as an exception.  Escapes (`{{`) and format specs are not
modelled; the source's templates use none. -/
def fmtAux (kw : List (String × String)) (mode : Option (List Char)) :
    List Char → Option (List Char)
  | [] =>
    match mode with
    | none => some []
    | some _ => none
  | c :: rest =>
    match mode with
    | none =>
      if c = '{' then fmtAux kw (some []) rest
      else (fmtAux kw none rest).map (c :: ·)
    | some acc =>
      if c = '}' then
        match lookupKw kw (String.mk acc) with
        | some v => (fmtAux kw none rest).map (fun t => v.data ++ t)
        | none => none
      else fmtAux kw (some (acc ++ [c])) rest

/-- `part.format(**kwargs)` for a single template token. -/
def format_token (kw : List (String × String)) (part : List Char) : Option String :=
  (fmtAux kw none part).map String.mk

/-- Python `template.split(' ')`: split on every single space, keeping empty
segments. -/
def splitOnSpace : List Char → List (List Char)
  | [] => [[]]
  | c :: rest =>
    if c = ' ' then [] :: splitOnSpace rest
    else
      match splitOnSpace rest with
      | [] => [[c]]
      | t :: ts => (c :: t) :: ts

/-- `Option`-valued map over a list (all-or-nothing). -/
def mapOption {α β : Type} (f : α → Option β) : List α → Option (List β)
  | [] => some []
  | a :: as =>
    match f a, mapOption f as with
    | some b, some bs => some (b :: bs)
    | _, _ => none

/-- tenper.py lines 63-82, `command_list`: split the template on `' '`, then
format every token independently against the keyword arguments.  `none`
corresponds to the KeyError/ValueError `str.format` would raise. -/
def command_list (template : String) (kw : List (String × String)) :
    Option (List String) :=
  mapOption (format_token kw) (splitOnSpace template.data)

/-! ## Observable actions and Python exceptions -/

/-- One observable effect of a tenper invocation. -/
inductive Action where
  /-- `subprocess.call` of this argument vector (tenper.py line 88). -/
  | run : List String → Action
  /-- `shutil.rmtree` of this path. -/
  | rmtree : String → Action
  /-- `os.remove` of this path. -/
  | removeFile : String → Action
  /-- the `try: os.rmdir(...) except: pass` cleanup. -/
  | rmdirTry : String → Action
  /-- a blocking `raw_input`/`input` with this prompt text. -/
  | prompt : String → Action
  deriving Repr, DecidableEq

/-- The Python exceptions the embedded fragments can raise. -/
inductive PyError where
  /-- `KeyError` from a dictionary/format lookup (the key or template). -/
  | keyError : String → PyError
  /-- the error `shutil.rmtree` raises on a nonexistent path. -/
  | fileNotFound : String → PyError
  deriving Repr, DecidableEq

/-- `d['key']`: a required dictionary access, raising `KeyError` when the
key is absent. -/
def getKey {α : Type} (v : Option α) (key : String) : Except PyError α :=
  match v with
  | some x => Except.ok x
  | none => Except.error (PyError.keyError key)

/-- `run(template, **kwargs)` (tenper.py lines 85-88) as seen by the trace:
the argument vector handed to `subprocess.call`.  The error case is the
exception `str.format` would raise; at every call site in the source the
keyword arguments are complete, so it never fires there. -/
def runCmd (template : String) (kw : List (String × String)) :
    Except PyError (List String) :=
  match command_list template kw with
  | some args => Except.ok args
  | none => Except.error (PyError.keyError template)

/-! ## Configuration data (the YAML dictionaries) -/

/-- The `virtualenv:` mapping.  Both keys are read with `.get` and a
default, hence `Option`. -/
structure VirtualenvConfig where
  /-- `config['virtualenv'].get('python binary', '/usr/bin/python')` -/
  python_binary : Option String
  /-- `config['virtualenv'].get('site packages?', False)` -/
  site_packages : Option Bool
  deriving Repr, DecidableEq

/-- One entry of the `windows:` list. -/
structure Window where
  /-- `window['name']` (always present in the claims' scope). -/
  name : String
  /-- `window.get('layout')`; Python truthiness makes `some ""` behave
  like `none`. -/
  layout : Option String
  /-- `window.get('panes', [])`. -/
  panes : Option (List String)
  deriving Repr, DecidableEq

/-- A parsed environment configuration (the YAML document).  Fields the
source reads with `config[...]` are `Option`s resolved through `getKey`. -/
structure Config where
  /-- `config['session name']` -/
  session_name : Option String
  /-- `config.get('virtualenv', None)` -/
  virtualenv : Option VirtualenvConfig
  /-- `config['project root']` -/
  project_root : Option String
  /-- `config['windows']` -/
  windows : Option (List Window)
  deriving Repr, DecidableEq

/-! ## Isolation manager: `confirm_virtualenv` (tenper.py lines 112-135) -/

/-- `confirm_virtualenv(config, delete_first)`.  `venv_exists` is the value
of `os.path.exists(path)` for the virtualenv directory; the result is the
list of effects of a successful run, or the exception raised. -/
def confirm_virtualenv (config : Config) (delete_first : Bool)
    (venv_exists : Bool) : Except PyError (List Action) := do
  -- Short circuit: we're not using a virtualenv.
  match config.virtualenv with
  | none => return []
  | some venv => do
    let session ← getKey config.session_name "session name"
    let path := pathJoin virtualenvs session
    -- Short circuit: virtualenv exists and we're not deleting it.
    if venv_exists && !delete_first then
      return []
    else do
      let pre ←
        if delete_first then
          if venv_exists then Except.ok [Action.rmtree path]
          else Except.error (PyError.fileNotFound path)
        else Except.ok ([] : List Action)
      let args ← runCmd "virtualenv -p {python_binary} {site_packages} {dir}"
        [("python_binary", venv.python_binary.getD "/usr/bin/python"),
         ("site_packages",
           if venv.site_packages.getD false then "--system-site-packages"
           else "--no-site-packages"),
         ("dir", path)]
      return pre ++ [Action.run args]

/-- `rebuild(env)` (tenper.py lines 192-195) applied to an already resolved
configuration. -/
def rebuild (config : Config) (venv_exists : Bool) :
    Except PyError (List Action) :=
  confirm_virtualenv config true venv_exists

/-! ## `delete` (tenper.py lines 163-189) -/

/-- The prompt shown when a virtualenv directory exists for the environment
name being deleted. -/
def delete_prompt (virtualenv : String) : String :=
  "There\x27s a virtualenv for this environment in " ++ virtualenv ++
    ". Do you want to delete it? "

/-- `delete(env)`.  `venv_exists` is `os.path.exists` of the virtualenv
directory *keyed by the environment name*; `resp` is the interactive reply.
The configuration file is assumed to exist (its absence is outside the
claims' scope). -/
def delete (env : String) (venv_exists : Bool) (resp : String) : List Action :=
  let config_file := pathJoin configs (env ++ ".yml")
  let virtualenv := pathJoin virtualenvs env
  (if venv_exists then
      Action.prompt (delete_prompt virtualenv) ::
        (if ["yes", "YES", "y", "Y"].contains resp.trim
         then [Action.rmtree virtualenv] else [])
    else [])
  ++ [Action.removeFile config_file, Action.rmdirTry configs]

/-! ## Session compiler: `start` (tenper.py lines 198-273) -/

/-- The body of the pane loop (tenper.py lines 240-262) for pane number
`pindex` of window target `window_target`.  `venv_path` is the
`virtualenv_path` variable (`some` exactly when `config.get('virtualenv')`
is truthy), `project_root` the still unresolved `config['project root']`. -/
def start_pane (project_root : Option String) (venv_path : Option String)
    (window_target : String) (pindex : Nat) (pane : String) :
    Except PyError (List Action) := do
  let pane_target := window_target ++ "." ++ toString pindex
  let split_acts ←
    if pindex ≠ 0 then do
      let a ← runCmd "tmux split-window -t {window_target}.0"
        [("window_target", window_target)]
      Except.ok [Action.run a]
    else Except.ok ([] : List Action)
  -- Activate the virtualenv.
  let venv_acts ←
    match venv_path with
    | some vp => do
      let a ← runCmd "tmux send-keys -t {pane_target} {command} ENTER"
        [("pane_target", pane_target), ("command", "source " ++ vp)]
      Except.ok [Action.run a]
    | none => Except.ok ([] : List Action)
  -- Go to the project directory.
  let root ← getKey project_root "project root"
  let cd ← runCmd "tmux send-keys -t {pane_target} {command} ENTER"
    [("pane_target", pane_target), ("command", "cd " ++ root)]
  -- Run the window command, if available.
  let cmd_acts ←
    if pane ≠ "" then do
      let a ← runCmd "tmux send-keys -t {pane_target} {command} ENTER"
        [("pane_target", pane_target), ("command", pane)]
      Except.ok [Action.run a]
    else Except.ok ([] : List Action)
  return split_acts ++ venv_acts ++ [Action.run cd] ++ cmd_acts

/-- `for pindex, pane in enumerate(...)` starting at pane number `pindex`. -/
def start_panes (project_root : Option String) (venv_path : Option String)
    (window_target : String) (pindex : Nat) :
    List String → Except PyError (List Action)
  | [] => return []
  | p :: ps => do
    let t ← start_pane project_root venv_path window_target pindex p
    let rest ← start_panes project_root venv_path window_target (pindex + 1) ps
    return t ++ rest

/-- The body of the window loop (tenper.py lines 227-270) for window number
`index`. -/
def start_window (session : String) (project_root : Option String)
    (venv_path : Option String) (index : Nat) (window : Window) :
    Except PyError (List Action) := do
  let window_target := session ++ ":" ++ toString index
  -- Create the window (or rename the first window).
  let create ←
    (if index = 0 then
      runCmd "tmux rename-window -t {window_target} {name}"
        [("window_target", window_target), ("name", window.name)]
    else
      runCmd "tmux new-window -t {window_target} -n {name}"
        [("window_target", window_target), ("name", window.name)])
  let pane_acts ← start_panes project_root venv_path window_target 0
    (window.panes.getD [])
  let layout_acts ←
    (match window.layout with
    | some l =>
      if l ≠ "" then
        (runCmd "tmux select-layout -t {window_target} {layout}"
          [("window_target", window_target), ("layout", l)]).map
          (fun a => [Action.run a])
      else Except.ok ([] : List Action)
    | none => Except.ok ([] : List Action))
  let sel ← runCmd "tmux select-pane -t {window_target}.0"
    [("window_target", window_target)]
  return [Action.run create] ++ pane_acts ++ layout_acts ++ [Action.run sel]

/-- `for index, window in enumerate(config['windows'])` from `index` on. -/
def start_windows (session : String) (project_root : Option String)
    (venv_path : Option String) (index : Nat) :
    List Window → Except PyError (List Action)
  | [] => return []
  | w :: ws => do
    let t ← start_window session project_root venv_path index w
    let rest ← start_windows session project_root venv_path (index + 1) ws
    return t ++ rest

/-- `start(env)` applied to an already resolved configuration.
`session_exists` is the truth of `tmux has-session`'s zero exit code,
`venv_exists` the existence of the virtualenv directory consulted by
`confirm_virtualenv`. -/
def start (config : Config) (session_exists : Bool) (venv_exists : Bool) :
    Except PyError (List Action) := do
  let venv_acts ← confirm_virtualenv config false venv_exists
  let session ← getKey config.session_name "session name"
  let venv_path : Option String :=
    if config.virtualenv.isSome then
      some (pathJoin (pathJoin (pathJoin virtualenvs session) "bin") "activate")
    else none
  let probe ← runCmd "tmux has-session -t {session}" [("session", session)]
  -- Short circuit for a preexisting session.
  if session_exists then do
    let att ← runCmd "tmux -2 attach-session -t {session}" [("session", session)]
    return venv_acts ++ [Action.run probe,
      Action.prompt "Session already exists: attaching. (Press any key to continue.)",
      Action.run att]
  else do
    -- Start the session.
    let create ← runCmd "tmux new-session -d -s {session}" [("session", session)]
    -- Provide a venv environment variable.
    let setenv_acts ←
      (match venv_path with
      | some vp =>
        (runCmd "tmux set-environment -t {session} venv {path}"
          [("session", session), ("path", vp)]).map (fun a => [Action.run a])
      | none => Except.ok ([] : List Action))
    let windows ← getKey config.windows "windows"
    let window_acts ← start_windows session config.project_root venv_path 0 windows
    let att ← runCmd "tmux -2 attach-session -t {session}" [("session", session)]
    return venv_acts ++ [Action.run probe, Action.run create] ++ setenv_acts
      ++ window_acts ++ [Action.run att]

/-! ## `edit` and the configuration template (tenper.py lines 22-49, 149-160) -/

/-- The default configuration file template, verbatim from the source
(apostrophes written as the escape `\x27`). -/
def config_template : String :=
  "# Shows up in \x27tmux list-sessions\x27 and on the left side of the status bar.\nsession name: {env}\n\n# Optional; if provided, the virtualenv activate script will be sourced in all\n# new windows and panes by setting tmux\x27s default-command option.\nvirtualenv:\n    python binary: /usr/bin/python\n    site packages?: false\n\n# When starting a tenper session, all windows and panes will be changed to this\n# directory.\nproject root: $HOME\n\nwindows:\n  - name: One\n    panes:\n      - ls -l\n\n  - name: Two\n    # Layout of the panes: even-horizontal, even-vertical, main-horizontal,\n    # main-vertical, or tiled. You can also specify the layout string in the\n    # list-windows command (see man tmux\x27s layout section).\n    layout: main-vertical\n    panes:\n        - ls\n        - vim\n        - top\n"

/-- The file content `edit` writes for a fresh environment:
`config_template.format(env=env)` (tenper.py line 158). -/
def edit_written_content (env : String) : Option String :=
  (fmtAux [("env", env)] none config_template.data).map String.mk

/-- Modelled from the spec: the YAML parser is an external collaborator
("out of scope... the YAML parser used to load configuration files"), so the
resolution (`config_for`, which is `yaml.load` of the file) of the default
file written by `edit` is modelled from §6's key layout: the template
document declares `session name: <env>`, a `virtualenv` mapping with
`python binary: /usr/bin/python` and `site packages?: false`, `project
root: $HOME`, and two windows `One` (panes `ls -l`) and `Two` (layout
`main-vertical`, panes `ls`, `vim`, `top`). -/
def resolve_template (env : String) : Config :=
  { session_name := some env
    virtualenv := some { python_binary := some "/usr/bin/python"
                         site_packages := some false }
    project_root := some "$HOME"
    windows := some
      [ { name := "One", layout := none, panes := some ["ls -l"] },
        { name := "Two", layout := some "main-vertical"
          panes := some ["ls", "vim", "top"] } ] }

/-! ## The spec's command-count formula (spec.md §8) -/

/-- Per-pane term of the spec formula:
`1 + [1 if isolation] + [1 if nonempty command]`. -/
def pane_spec_count (iso : Bool) (pane : String) : Nat :=
  1 + (if iso then 1 else 0) + (if pane = "" then 0 else 1)

/-- Whether a window's layout is truthy (`window.get('layout')`). -/
def layout_truthy (w : Window) : Bool :=
  match w.layout with
  | some l => l ≠ ""
  | none => false

/-- Per-window term of the spec formula:
`1 rename/create + (P_i - 1) splits + Σ per-pane + [1 if layout] + 1 select-pane`. -/
def window_spec_count (iso : Bool) (w : Window) : Nat :=
  let ps := w.panes.getD []
  1 + (ps.length - 1) + (ps.map (pane_spec_count iso)).sum
    + (if layout_truthy w then 1 else 0) + 1

/-- The full count claimed by the spec for a fresh-session compile:
`1 (create/attach) + [1 if isolation] + Σ window terms + 1 attach`. -/
def claim_count (config : Config) : Nat :=
  1 + (if config.virtualenv.isSome then 1 else 0)
    + ((config.windows.getD []).map
        (window_spec_count config.virtualenv.isSome)).sum
    + 1

/-- The multiplexer commands of a trace: argument vectors of `run` actions
whose program is `tmux`. -/
def tmux_commands (tr : List Action) : List (List String) :=
  tr.filterMap (fun a =>
    match a with
    | Action.run args => if args.head? = some "tmux" then some args else none
    | _ => none)

/-- How many multiplexer commands a trace issues. -/
def count_tmux (tr : List Action) : Nat := (tmux_commands tr).length

/-! ## Helper lemmas: the `Except` monad -/

theorem ok_bind {α β : Type} (a : α) (f : α → Except PyError β) :
    (Except.ok a : Except PyError α) >>= f = f a := rfl

theorem error_bind {α β : Type} (e : PyError) (f : α → Except PyError β) :
    (Except.error e : Except PyError α) >>= f = Except.error e := rfl

theorem pure_eq_ok {α : Type} (a : α) :
    (pure a : Except PyError α) = Except.ok a := rfl

theorem except_bind_ok {α β : Type} (e : Except PyError α)
    (f : α → Except PyError β) (b : β) :
    e >>= f = Except.ok b ↔ ∃ a, e = Except.ok a ∧ f a = Except.ok b := by
  cases e <;> simp [Bind.bind, Except.bind]

/-! ## Helper lemmas: strings -/

theorem mkData (s : String) : String.mk s.data = s := rfl

theorem mk_data_append (s : String) (l : List Char) :
    String.mk (s.data ++ l) = s ++ String.mk l := rfl

theorem append_ne_empty_left (s t : String) (h : s.data ≠ []) : s ++ t ≠ "" := by
  intro heq
  have h2 : (s ++ t).data = ("" : String).data := by rw [heq]
  simp only [String.data_append] at h2
  exact h (List.append_eq_nil.mp h2).1

theorem append_right_inj (a x y : String) (h : a ++ x = a ++ y) : x = y := by
  have h2 : (a ++ x).data = (a ++ y).data := by rw [h]
  simp only [String.data_append] at h2
  exact String.ext (List.append_cancel_left h2)

theorem append_mid_ne (a b x y : String) (hx : x ≠ y) :
    a ++ x ++ b ≠ a ++ y ++ b := by
  intro h
  apply hx
  have h2 : (a ++ x ++ b).data = (a ++ y ++ b).data := by rw [h]
  simp only [String.data_append] at h2
  exact String.ext (List.append_cancel_left (List.append_cancel_right h2))

/-! ## Helper lemmas: counting multiplexer commands -/

theorem tmux_commands_append (a b : List Action) :
    tmux_commands (a ++ b) = tmux_commands a ++ tmux_commands b := by
  simp [tmux_commands, List.filterMap_append]

theorem count_tmux_append (a b : List Action) :
    count_tmux (a ++ b) = count_tmux a + count_tmux b := by
  simp [count_tmux, tmux_commands_append]

theorem count_tmux_run_tmux (rest : List String) :
    count_tmux [Action.run ("tmux" :: rest)] = 1 := by
  simp [count_tmux, tmux_commands]

/-! ## Helper lemmas: `mapOption` -/

theorem mapOption_length {α β : Type} (f : α → Option β) (l : List α) :
    ∀ l' : List β, mapOption f l = some l' → l'.length = l.length := by
  induction l with
  | nil =>
    intro l' h
    simp only [mapOption, Option.some.injEq] at h
    subst h
    rfl
  | cons a as ih =>
    intro l' h
    simp only [mapOption] at h
    cases hfa : f a with
    | none => rw [hfa] at h; simp at h
    | some b =>
      rw [hfa] at h
      cases hma : mapOption f as with
      | none => rw [hma] at h; simp at h
      | some bs =>
        rw [hma] at h
        simp only [Option.some.injEq] at h
        subst h
        simp [ih bs hma]

/-! ## Evaluation of the source's command templates

Each lemma evaluates `runCmd` on one of the literal templates of the source
with complete keyword arguments; the substitution values stay abstract. -/

theorem rc_has_session (s : String) :
    runCmd "tmux has-session -t {session}" [("session", s)] =
      Except.ok ["tmux", "has-session", "-t", s] := by
  simp [runCmd, command_list, splitOnSpace, format_token, fmtAux, lookupKw,
    mapOption, mkData]

theorem rc_attach (s : String) :
    runCmd "tmux -2 attach-session -t {session}" [("session", s)] =
      Except.ok ["tmux", "-2", "attach-session", "-t", s] := by
  simp [runCmd, command_list, splitOnSpace, format_token, fmtAux, lookupKw,
    mapOption, mkData]

theorem rc_new_session (s : String) :
    runCmd "tmux new-session -d -s {session}" [("session", s)] =
      Except.ok ["tmux", "new-session", "-d", "-s", s] := by
  simp [runCmd, command_list, splitOnSpace, format_token, fmtAux, lookupKw,
    mapOption, mkData]

theorem rc_set_environment (s p : String) :
    runCmd "tmux set-environment -t {session} venv {path}"
      [("session", s), ("path", p)] =
      Except.ok ["tmux", "set-environment", "-t", s, "venv", p] := by
  simp [runCmd, command_list, splitOnSpace, format_token, fmtAux, lookupKw,
    mapOption, mkData]

theorem rc_rename_window (wt n : String) :
    runCmd "tmux rename-window -t {window_target} {name}"
      [("window_target", wt), ("name", n)] =
      Except.ok ["tmux", "rename-window", "-t", wt, n] := by
  simp [runCmd, command_list, splitOnSpace, format_token, fmtAux, lookupKw,
    mapOption, mkData]

theorem rc_new_window (wt n : String) :
    runCmd "tmux new-window -t {window_target} -n {name}"
      [("window_target", wt), ("name", n)] =
      Except.ok ["tmux", "new-window", "-t", wt, "-n", n] := by
  simp [runCmd, command_list, splitOnSpace, format_token, fmtAux, lookupKw,
    mapOption, mkData]

theorem rc_split_window (wt : String) :
    runCmd "tmux split-window -t {window_target}.0" [("window_target", wt)] =
      Except.ok ["tmux", "split-window", "-t", wt ++ ".0"] := by
  simp [runCmd, command_list, splitOnSpace, format_token, fmtAux, lookupKw,
    mapOption, mkData, mk_data_append]

theorem rc_send_keys (pt c : String) :
    runCmd "tmux send-keys -t {pane_target} {command} ENTER"
      [("pane_target", pt), ("command", c)] =
      Except.ok ["tmux", "send-keys", "-t", pt, c, "ENTER"] := by
  simp [runCmd, command_list, splitOnSpace, format_token, fmtAux, lookupKw,
    mapOption, mkData]

theorem rc_select_layout (wt l : String) :
    runCmd "tmux select-layout -t {window_target} {layout}"
      [("window_target", wt), ("layout", l)] =
      Except.ok ["tmux", "select-layout", "-t", wt, l] := by
  simp [runCmd, command_list, splitOnSpace, format_token, fmtAux, lookupKw,
    mapOption, mkData]

theorem rc_select_pane (wt : String) :
    runCmd "tmux select-pane -t {window_target}.0" [("window_target", wt)] =
      Except.ok ["tmux", "select-pane", "-t", wt ++ ".0"] := by
  simp [runCmd, command_list, splitOnSpace, format_token, fmtAux, lookupKw,
    mapOption, mkData, mk_data_append]

theorem rc_virtualenv (pb sp d : String) :
    runCmd "virtualenv -p {python_binary} {site_packages} {dir}"
      [("python_binary", pb), ("site_packages", sp), ("dir", d)] =
      Except.ok ["virtualenv", "-p", pb, sp, d] := by
  simp [runCmd, command_list, splitOnSpace, format_token, fmtAux, lookupKw,
    mapOption, mkData]

/-! ## Structure of `confirm_virtualenv` runs -/

/-- Successful `confirm_virtualenv` runs issue no multiplexer command. -/
theorem confirm_virtualenv_tmux_nil (cfg : Config) (d ve : Bool)
    (tr : List Action) (h : confirm_virtualenv cfg d ve = Except.ok tr) :
    tmux_commands tr = [] := by
  cases hv : cfg.virtualenv with
  | none =>
    simp [confirm_virtualenv, hv, pure_eq_ok] at h
    subst h
    simp [tmux_commands]
  | some v =>
    cases hs : cfg.session_name with
    | none =>
      simp [confirm_virtualenv, hv, hs, getKey, Bind.bind, Except.bind] at h
    | some s =>
      cases d <;> cases ve <;>
        simp [confirm_virtualenv, hv, hs, getKey, Bind.bind, Except.bind,
          rc_virtualenv, pure_eq_ok] at h <;>
        (subst h; simp [tmux_commands])

/-- In the create case (isolation configured, directory absent, no forced
recreation) `confirm_virtualenv` issues exactly one `virtualenv` call. -/
theorem confirm_create_eq (cfg : Config) (v : VirtualenvConfig) (s : String)
    (hv : cfg.virtualenv = some v) (hs : cfg.session_name = some s) :
    confirm_virtualenv cfg false false =
      Except.ok [Action.run ["virtualenv", "-p",
        v.python_binary.getD "/usr/bin/python",
        (if v.site_packages.getD false then "--system-site-packages"
         else "--no-site-packages"),
        pathJoin virtualenvs s]] := by
  simp [confirm_virtualenv, hv, hs, getKey, Bind.bind, Except.bind,
    rc_virtualenv, pure_eq_ok]

/-- Claim C8: an environment with no isolation block makes
`confirm_virtualenv` a no-op — no external command, no filesystem action —
for either value of `delete_first` and any directory state. -/
theorem confirm_virtualenv_noop_without_isolation (cfg : Config) (d ve : Bool)
    (h : cfg.virtualenv = none) : confirm_virtualenv cfg d ve = Except.ok [] := by
  simp [confirm_virtualenv, h, pure_eq_ok]

/-- Witness for C8 at a concrete configuration. -/
theorem confirm_virtualenv_noop_without_isolation_witness :
    confirm_virtualenv
      { session_name := some "x", virtualenv := none, project_root := none,
        windows := none } true true = Except.ok [] :=
  confirm_virtualenv_noop_without_isolation
    { session_name := some "x", virtualenv := none, project_root := none,
      windows := none } true true rfl

/-- Claim C5: with isolation configured and no existing isolation
directory, `confirm_virtualenv` (with `force_recreate` false) invokes the
isolation tool exactly once, with the configured interpreter path (default
`/usr/bin/python`), the system-packages flag derived from the boolean
option, and the session-keyed target directory. -/
theorem confirm_virtualenv_creates_once (cfg : Config) (v : VirtualenvConfig)
    (s : String) (hv : cfg.virtualenv = some v) (hs : cfg.session_name = some s) :
    confirm_virtualenv cfg false false =
      Except.ok [Action.run ["virtualenv", "-p",
        v.python_binary.getD "/usr/bin/python",
        (if v.site_packages.getD false then "--system-site-packages"
         else "--no-site-packages"),
        pathJoin virtualenvs s]] :=
  confirm_create_eq cfg v s hv hs

/-- Witness for C5 at a concrete configuration. -/
theorem confirm_virtualenv_creates_once_witness :
    confirm_virtualenv
      { session_name := some "sv",
        virtualenv := some { python_binary := some "/usr/bin/python3",
                             site_packages := some true },
        project_root := none, windows := none } false false =
      Except.ok [Action.run ["virtualenv", "-p", "/usr/bin/python3",
        "--system-site-packages", "~/.virtualenvs/sv"]] :=
  confirm_virtualenv_creates_once
    { session_name := some "sv",
      virtualenv := some { python_binary := some "/usr/bin/python3",
                           site_packages := some true },
      project_root := none, windows := none }
    { python_binary := some "/usr/bin/python3", site_packages := some true }
    "sv" rfl rfl

/-- Claim C10: with isolation configured and the isolation directory
absent, `rebuild` (ensure with `force_recreate` true) raises the
`shutil.rmtree` error for the missing directory; the error precedes any
isolation-tool invocation, so the run produces no action at all. -/
theorem rebuild_missing_virtualenv_raises (cfg : Config) (v : VirtualenvConfig)
    (s : String) (hv : cfg.virtualenv = some v) (hs : cfg.session_name = some s) :
    rebuild cfg false =
      Except.error (PyError.fileNotFound (pathJoin virtualenvs s)) := by
  simp [rebuild, confirm_virtualenv, hv, hs, getKey, Bind.bind, Except.bind]

/-- Witness for C10 at a concrete configuration. -/
theorem rebuild_missing_virtualenv_raises_witness :
    rebuild
      { session_name := some "sx",
        virtualenv := some { python_binary := none, site_packages := none },
        project_root := none, windows := none } false =
      Except.error (PyError.fileNotFound "~/.virtualenvs/sx") :=
  rebuild_missing_virtualenv_raises
    { session_name := some "sx",
      virtualenv := some { python_binary := none, site_packages := none },
      project_root := none, windows := none }
    { python_binary := none, site_packages := none } "sx" rfl rfl

/-- Claim C9: `confirm_virtualenv` keys the isolation directory by the
session name while `delete` keys it by the environment name, so when the
two names differ, `delete` neither checks, prompts about, nor removes the
directory the ensure step created. -/
theorem delete_misses_session_keyed_virtualenv (cfg : Config)
    (v : VirtualenvConfig) (env s : String) (hv : cfg.virtualenv = some v)
    (hs : cfg.session_name = some s) (hne : s ≠ env) :
    confirm_virtualenv cfg false false =
      Except.ok [Action.run ["virtualenv", "-p",
        v.python_binary.getD "/usr/bin/python",
        (if v.site_packages.getD false then "--system-site-packages"
         else "--no-site-packages"),
        pathJoin virtualenvs s]]
    ∧ pathJoin virtualenvs s ≠ pathJoin virtualenvs env
    ∧ ∀ (ve : Bool) (resp : String),
        Action.rmtree (pathJoin virtualenvs s) ∉ delete env ve resp
        ∧ Action.prompt (delete_prompt (pathJoin virtualenvs s)) ∉
            delete env ve resp := by
  have hpath : pathJoin virtualenvs s ≠ pathJoin virtualenvs env := by
    intro h
    exact hne (append_right_inj (virtualenvs ++ "/") s env h)
  have hprompt : delete_prompt (pathJoin virtualenvs s) ≠
      delete_prompt (pathJoin virtualenvs env) :=
    append_mid_ne "There\x27s a virtualenv for this environment in "
      ". Do you want to delete it? " (pathJoin virtualenvs s)
      (pathJoin virtualenvs env) hpath
  refine ⟨confirm_create_eq cfg v s hv hs, hpath, ?_⟩
  intro ve resp
  cases ve <;>
    by_cases hc : (["yes", "YES", "y", "Y"].contains resp.trim) = true <;>
      exact ⟨by simp [delete, hc, hpath, hprompt],
        by simp [delete, hc, hpath, hprompt]⟩

/-- Witness for C9 at concrete names (session `b`, environment `a`). -/
theorem delete_misses_session_keyed_virtualenv_witness :
    Action.rmtree (pathJoin virtualenvs "b") ∉ delete "a" true "y" :=
  ((delete_misses_session_keyed_virtualenv
    { session_name := some "b",
      virtualenv := some { python_binary := none, site_packages := none },
      project_root := none, windows := none }
    { python_binary := none, site_packages := none }
    "a" "b" rfl rfl (by decide)).2.2 true "y").1

/-! ## Structure of `start` runs -/

/-- Explicit form of the pane body when the project root is present. -/
theorem start_pane_some (r : String) (vp : Option String) (wt : String)
    (pi : Nat) (p : String) :
    start_pane (some r) vp wt pi p = Except.ok (
      (if pi ≠ 0 then [Action.run ["tmux", "split-window", "-t", wt ++ ".0"]]
       else [])
      ++ (match vp with
          | some v => [Action.run ["tmux", "send-keys", "-t",
              wt ++ "." ++ toString pi, "source " ++ v, "ENTER"]]
          | none => [])
      ++ [Action.run ["tmux", "send-keys", "-t", wt ++ "." ++ toString pi,
            "cd " ++ r, "ENTER"]]
      ++ (if p ≠ "" then [Action.run ["tmux", "send-keys", "-t",
            wt ++ "." ++ toString pi, p, "ENTER"]] else [])) := by
  cases vp <;> by_cases hpi : pi = 0 <;> by_cases hp : p = "" <;>
    simp [start_pane, getKey, hpi, hp, Bind.bind, Except.bind,
      rc_split_window, rc_send_keys, pure_eq_ok]

/-- A missing `project root` key raises inside the pane body. -/
theorem start_pane_none (vp : Option String) (wt : String) (pi : Nat)
    (p : String) :
    start_pane none vp wt pi p =
      Except.error (PyError.keyError "project root") := by
  cases vp <;> by_cases hpi : pi = 0 <;>
    simp [start_pane, getKey, hpi, Bind.bind, Except.bind, rc_split_window,
      rc_send_keys, pure_eq_ok]

/-- The pane body issues `[1 if split] + 1 + [1 if isolation] +
[1 if nonempty command]` multiplexer commands. -/
theorem start_pane_count (pr : Option String) (vp : Option String)
    (wt : String) (pi : Nat) (p : String) (tr : List Action)
    (h : start_pane pr vp wt pi p = Except.ok tr) :
    count_tmux tr = (if pi = 0 then 0 else 1) + pane_spec_count vp.isSome p := by
  cases pr with
  | none => rw [start_pane_none] at h; exact absurd h (by simp)
  | some r =>
    rw [start_pane_some] at h
    simp only [Except.ok.injEq] at h
    subst h
    cases vp <;> by_cases hpi : pi = 0 <;> by_cases hp : p = "" <;>
      simp [hpi, hp, count_tmux_append, count_tmux_run_tmux, pane_spec_count,
        count_tmux, tmux_commands]

theorem sum_map_one_add (f : String → Nat) (l : List String) :
    (l.map (fun p => 1 + f p)).sum = l.length + (l.map f).sum := by
  induction l with
  | nil => rfl
  | cons a as ih => simp [ih]; omega

/-- Pane loop from a nonzero pane number: every pane is preceded by a
split. -/
theorem start_panes_count_pos (pr : Option String) (vp : Option String)
    (wt : String) (ps : List String) :
    ∀ (i : Nat) (tr : List Action), i ≠ 0 →
      start_panes pr vp wt i ps = Except.ok tr →
      count_tmux tr =
        (ps.map (fun p => 1 + pane_spec_count vp.isSome p)).sum := by
  induction ps with
  | nil =>
    intro i tr _ h
    simp [start_panes, pure_eq_ok] at h
    subst h
    rfl
  | cons p ps ih =>
    intro i tr hi h
    simp only [start_panes] at h
    rw [except_bind_ok] at h
    obtain ⟨t, ht, h⟩ := h
    rw [except_bind_ok] at h
    obtain ⟨rest, hrest, h⟩ := h
    simp only [pure_eq_ok, Except.ok.injEq] at h
    subst h
    rw [count_tmux_append, start_pane_count pr vp wt i p t ht,
      ih (i + 1) rest (by omega) hrest]
    simp [hi]

/-- Pane loop from pane number zero: the first pane has no split, each of
the remaining `P - 1` panes has one. -/
theorem start_panes_count_zero (pr : Option String) (vp : Option String)
    (wt : String) (ps : List String) (tr : List Action)
    (h : start_panes pr vp wt 0 ps = Except.ok tr) :
    count_tmux tr =
      (ps.length - 1) + (ps.map (pane_spec_count vp.isSome)).sum := by
  cases ps with
  | nil =>
    simp [start_panes, pure_eq_ok] at h
    subst h
    rfl
  | cons p ps =>
    simp only [start_panes] at h
    rw [except_bind_ok] at h
    obtain ⟨t, ht, h⟩ := h
    rw [except_bind_ok] at h
    obtain ⟨rest, hrest, h⟩ := h
    simp only [pure_eq_ok, Except.ok.injEq] at h
    subst h
    rw [count_tmux_append, start_pane_count pr vp wt 0 p t ht,
      start_panes_count_pos pr vp wt ps 1 rest (by omega) hrest,
      sum_map_one_add]
    simp
    omega

/-- The window body issues exactly the spec's per-window count of
multiplexer commands. -/
theorem start_window_count (s : String) (pr : Option String)
    (vp : Option String) (i : Nat) (w : Window) (tr : List Action)
    (h : start_window s pr vp i w = Except.ok tr) :
    count_tmux tr = window_spec_count vp.isSome w := by
  have hcreate : ∃ c0 : List String,
      (if i = 0 then
        runCmd "tmux rename-window -t {window_target} {name}"
          [("window_target", s ++ ":" ++ toString i), ("name", w.name)]
      else
        runCmd "tmux new-window -t {window_target} -n {name}"
          [("window_target", s ++ ":" ++ toString i), ("name", w.name)]) =
        Except.ok ("tmux" :: c0) := by
    by_cases hi : i = 0 <;> simp [hi, rc_rename_window, rc_new_window]
  obtain ⟨c0, hc⟩ := hcreate
  simp only [start_window] at h
  rw [hc, ok_bind] at h
  rw [except_bind_ok] at h
  obtain ⟨pane_acts, hpanes, h⟩ := h
  rw [except_bind_ok] at h
  obtain ⟨layout_acts, hlay, h⟩ := h
  rw [rc_select_pane, ok_bind] at h
  simp only [pure_eq_ok, Except.ok.injEq] at h
  subst h
  have h1 : count_tmux pane_acts =
      ((w.panes.getD []).length - 1) +
        ((w.panes.getD []).map (pane_spec_count vp.isSome)).sum :=
    start_panes_count_zero pr vp (s ++ ":" ++ toString i) (w.panes.getD [])
      pane_acts hpanes
  have h2 : count_tmux layout_acts = (if layout_truthy w then 1 else 0) := by
    cases hl : w.layout with
    | none =>
      rw [hl] at hlay
      simp only [pure_eq_ok, Except.ok.injEq] at hlay
      subst hlay
      simp [layout_truthy, hl, count_tmux, tmux_commands]
    | some l =>
      rw [hl] at hlay
      by_cases hle : l = ""
      · simp only [hle, ne_eq, not_true_eq_false, if_false, pure_eq_ok,
          Except.ok.injEq] at hlay
        subst hlay
        simp [layout_truthy, hl, hle, count_tmux, tmux_commands]
      · simp only [hle, ne_eq, not_false_eq_true, if_true, rc_select_layout,
          Except.map, Except.ok.injEq] at hlay
        subst hlay
        simp [layout_truthy, hl, hle, count_tmux_run_tmux]
  simp only [count_tmux_append, count_tmux_run_tmux, h1, h2,
    window_spec_count]
  omega

/-- The window loop issues the sum of the per-window counts. -/
theorem start_windows_count (s : String) (pr : Option String)
    (vp : Option String) (ws : List Window) :
    ∀ (i : Nat) (tr : List Action),
      start_windows s pr vp i ws = Except.ok tr →
      count_tmux tr = (ws.map (window_spec_count vp.isSome)).sum := by
  induction ws with
  | nil =>
    intro i tr h
    simp [start_windows, pure_eq_ok] at h
    subst h
    rfl
  | cons w ws ih =>
    intro i tr h
    simp only [start_windows] at h
    rw [except_bind_ok] at h
    obtain ⟨t, ht, h⟩ := h
    rw [except_bind_ok] at h
    obtain ⟨rest, hrest, h⟩ := h
    simp only [pure_eq_ok, Except.ok.injEq] at h
    subst h
    rw [count_tmux_append, start_window_count s pr vp i w t ht,
      ih (i + 1) rest hrest]
    simp

theorem count_tmux_nil : count_tmux [] = 0 := rfl

theorem count_tmux_cons_tmux (rest : List String) (tr : List Action) :
    count_tmux (Action.run ("tmux" :: rest) :: tr) = 1 + count_tmux tr := by
  simp [count_tmux, tmux_commands, Nat.add_comm]

/-! ## The session compiler claims -/

/-- A fresh-session `start` run issues the spec formula's count of
multiplexer commands plus one (the `has-session` probe). -/
theorem start_fresh_count_aux (cfg : Config) (ve : Bool) (tr : List Action)
    (h : start cfg false ve = Except.ok tr) :
    count_tmux tr = claim_count cfg + 1 := by
  simp only [start] at h
  rw [except_bind_ok] at h
  obtain ⟨venv_acts, hven, h⟩ := h
  have hv0 : count_tmux venv_acts = 0 := by
    simp [count_tmux, confirm_virtualenv_tmux_nil cfg false ve venv_acts hven]
  cases hs : cfg.session_name with
  | none =>
    rw [hs] at h
    simp only [getKey, error_bind] at h
    exact absurd h (by simp)
  | some s =>
    rw [hs] at h
    simp only [getKey, ok_bind, rc_has_session, Bool.false_eq_true, if_false,
      rc_new_session] at h
    cases hv : cfg.virtualenv with
    | none =>
      rw [hv] at h
      simp only [Option.isSome_none, Bool.false_eq_true, if_false, ok_bind] at h
      cases hw : cfg.windows with
      | none =>
        rw [hw] at h
        simp only [getKey, error_bind] at h
        exact absurd h (by simp)
      | some ws =>
        rw [hw] at h
        simp only [getKey, ok_bind] at h
        rw [except_bind_ok] at h
        obtain ⟨w_acts, hwin, h⟩ := h
        rw [rc_attach, ok_bind] at h
        simp only [pure_eq_ok, Except.ok.injEq] at h
        subst h
        have hw0 := start_windows_count s cfg.project_root none ws 0 w_acts hwin
        simp only [count_tmux_append, count_tmux_cons_tmux, count_tmux_nil,
          hv0, hw0, claim_count, hv, hw, Option.isSome_none, Option.getD_some,
          Bool.false_eq_true, if_false, Option.isSome_some] at *
        omega
    | some v =>
      rw [hv] at h
      simp only [Option.isSome_some, if_true, rc_set_environment, Except.map,
        ok_bind] at h
      cases hw : cfg.windows with
      | none =>
        rw [hw] at h
        simp only [getKey, error_bind] at h
        exact absurd h (by simp)
      | some ws =>
        rw [hw] at h
        simp only [getKey, ok_bind] at h
        rw [except_bind_ok] at h
        obtain ⟨w_acts, hwin, h⟩ := h
        rw [rc_attach, ok_bind] at h
        simp only [pure_eq_ok, Except.ok.injEq] at h
        subst h
        have hw0 := start_windows_count s cfg.project_root
          (some (pathJoin (pathJoin (pathJoin virtualenvs s) "bin") "activate"))
          ws 0 w_acts hwin
        simp only [Option.isSome_some] at hw0
        simp only [count_tmux_append, count_tmux_cons_tmux, count_tmux_nil,
          hv0, hw0, claim_count, hv, hw, Option.getD_some, Option.isSome_some,
          if_true] at *
        omega

/-! ## The spec's emission order (spec.md §4.3)

The following definitions spell out, following the spec's words, the
ordered sequence of multiplexer commands a fresh-session compile must
produce; they are the refinement side compared against the source-derived
`start`. -/

/-- Spec §4.3 step 4, per pane: a split targeting pane 0 for every pane
but the first, the isolation `source`, the `cd` to the project root, and
the pane's command when non-empty. -/
def spec_pane_commands (vp : Option String) (root wt : String) (pi : Nat)
    (p : String) : List (List String) :=
  (if pi ≠ 0 then [["tmux", "split-window", "-t", wt ++ ".0"]] else [])
  ++ (match vp with
      | some v => [["tmux", "send-keys", "-t", wt ++ "." ++ toString pi,
          "source " ++ v, "ENTER"]]
      | none => [])
  ++ [["tmux", "send-keys", "-t", wt ++ "." ++ toString pi, "cd " ++ root,
        "ENTER"]]
  ++ (if p ≠ "" then [["tmux", "send-keys", "-t", wt ++ "." ++ toString pi,
        p, "ENTER"]] else [])

/-- The panes of a window, in order, starting at pane number `i`. -/
def spec_panes_commands (vp : Option String) (root wt : String) (i : Nat) :
    List String → List (List String)
  | [] => []
  | p :: ps =>
    spec_pane_commands vp root wt i p
      ++ spec_panes_commands vp root wt (i + 1) ps

/-- Spec §4.3 step 4, per window: rename (index 0) or create (index > 0),
the panes in order, the optional layout selection, and the final
`select-pane` on pane 0. -/
def spec_window_commands (vp : Option String) (root s : String) (i : Nat)
    (w : Window) : List (List String) :=
  (if i = 0 then [["tmux", "rename-window", "-t", s ++ ":" ++ toString i,
      w.name]]
   else [["tmux", "new-window", "-t", s ++ ":" ++ toString i, "-n", w.name]])
  ++ spec_panes_commands vp root (s ++ ":" ++ toString i) 0 (w.panes.getD [])
  ++ (if layout_truthy w then [["tmux", "select-layout", "-t",
        s ++ ":" ++ toString i, w.layout.getD ""]] else [])
  ++ [["tmux", "select-pane", "-t", s ++ ":" ++ toString i ++ ".0"]]

/-- The windows, in order, starting at window index `i`. -/
def spec_windows_commands (vp : Option String) (root s : String) (i : Nat) :
    List Window → List (List String)
  | [] => []
  | w :: ws =>
    spec_window_commands vp root s i w
      ++ spec_windows_commands vp root s (i + 1) ws

/-- The activation-script path bound when isolation is configured. -/
def activate_path (s : String) : String :=
  pathJoin (pathJoin (pathJoin virtualenvs s) "bin") "activate"

/-- The full fresh-session sequence: existence probe, detached create, the
optional isolation environment binding, the windows in order, and the
final attach (spec §4.3 steps 1-5, plus the probe the formula omits). -/
def spec_session_commands (iso : Bool) (s root : String) (ws : List Window) :
    List (List String) :=
  [["tmux", "has-session", "-t", s], ["tmux", "new-session", "-d", "-s", s]]
  ++ (if iso then [["tmux", "set-environment", "-t", s, "venv",
        activate_path s]] else [])
  ++ spec_windows_commands (if iso then some (activate_path s) else none)
      root s 0 ws
  ++ [["tmux", "-2", "attach-session", "-t", s]]

theorem tmux_commands_nil : tmux_commands [] = [] := rfl

theorem tmux_commands_cons_tmux (rest : List String) (tr : List Action) :
    tmux_commands (Action.run ("tmux" :: rest) :: tr) =
      ("tmux" :: rest) :: tmux_commands tr := by
  simp [tmux_commands]

/-- The pane body's multiplexer commands are the spec's, in order. -/
theorem start_pane_tmux (r : String) (vp : Option String) (wt : String)
    (pi : Nat) (p : String) (tr : List Action)
    (h : start_pane (some r) vp wt pi p = Except.ok tr) :
    tmux_commands tr = spec_pane_commands vp r wt pi p := by
  rw [start_pane_some] at h
  simp only [Except.ok.injEq] at h
  subst h
  cases vp <;> by_cases hpi : pi = 0 <;> by_cases hp : p = "" <;>
    simp [hpi, hp, spec_pane_commands, tmux_commands_append, tmux_commands]

/-- The pane loop's multiplexer commands are the spec's, in order. -/
theorem start_panes_tmux (r : String) (vp : Option String) (wt : String)
    (ps : List String) :
    ∀ (i : Nat) (tr : List Action),
      start_panes (some r) vp wt i ps = Except.ok tr →
      tmux_commands tr = spec_panes_commands vp r wt i ps := by
  induction ps with
  | nil =>
    intro i tr h
    simp [start_panes, pure_eq_ok] at h
    subst h
    rfl
  | cons p ps ih =>
    intro i tr h
    simp only [start_panes] at h
    rw [except_bind_ok] at h
    obtain ⟨t, ht, h⟩ := h
    rw [except_bind_ok] at h
    obtain ⟨rest, hrest, h⟩ := h
    simp only [pure_eq_ok, Except.ok.injEq] at h
    subst h
    rw [tmux_commands_append, start_pane_tmux r vp wt i p t ht,
      ih (i + 1) rest hrest]
    rfl

/-- The window body's multiplexer commands are the spec's, in order. -/
theorem start_window_tmux (s r : String) (vp : Option String) (i : Nat)
    (w : Window) (tr : List Action)
    (h : start_window s (some r) vp i w = Except.ok tr) :
    tmux_commands tr = spec_window_commands vp r s i w := by
  have hcreate : ∃ c0 : List String,
      (if i = 0 then
        runCmd "tmux rename-window -t {window_target} {name}"
          [("window_target", s ++ ":" ++ toString i), ("name", w.name)]
      else
        runCmd "tmux new-window -t {window_target} -n {name}"
          [("window_target", s ++ ":" ++ toString i), ("name", w.name)]) =
        Except.ok ("tmux" :: c0)
      ∧ (if i = 0 then [("tmux" :: c0)]
         else [("tmux" :: c0)]) =
        (if i = 0 then [["tmux", "rename-window", "-t",
            s ++ ":" ++ toString i, w.name]]
         else [["tmux", "new-window", "-t", s ++ ":" ++ toString i, "-n",
            w.name]]) := by
    by_cases hi : i = 0 <;>
      simp [hi, rc_rename_window, rc_new_window]
  obtain ⟨c0, hc, hc2⟩ := hcreate
  simp only [start_window] at h
  rw [hc, ok_bind] at h
  rw [except_bind_ok] at h
  obtain ⟨pane_acts, hpanes, h⟩ := h
  rw [except_bind_ok] at h
  obtain ⟨layout_acts, hlay, h⟩ := h
  rw [rc_select_pane, ok_bind] at h
  simp only [pure_eq_ok, Except.ok.injEq] at h
  subst h
  have h1 : tmux_commands pane_acts =
      spec_panes_commands vp r (s ++ ":" ++ toString i) 0 (w.panes.getD []) :=
    start_panes_tmux r vp (s ++ ":" ++ toString i) (w.panes.getD []) 0
      pane_acts hpanes
  have h2 : tmux_commands layout_acts =
      (if layout_truthy w then [["tmux", "select-layout", "-t",
        s ++ ":" ++ toString i, w.layout.getD ""]] else []) := by
    cases hl : w.layout with
    | none =>
      rw [hl] at hlay
      simp only [pure_eq_ok, Except.ok.injEq] at hlay
      subst hlay
      simp [layout_truthy, hl, tmux_commands]
    | some l =>
      rw [hl] at hlay
      by_cases hle : l = ""
      · simp only [hle, ne_eq, not_true_eq_false, if_false, pure_eq_ok,
          Except.ok.injEq] at hlay
        subst hlay
        simp [layout_truthy, hl, hle, tmux_commands]
      · simp only [hle, ne_eq, not_false_eq_true, if_true, rc_select_layout,
          Except.map, Except.ok.injEq] at hlay
        subst hlay
        simp [layout_truthy, hl, hle, tmux_commands]
  simp only [tmux_commands_append, tmux_commands_cons_tmux, tmux_commands_nil,
    h1, h2, spec_window_commands]
  rw [← hc2]
  by_cases hi : i = 0 <;> simp [hi]

/-- The window loop's multiplexer commands are the spec's, in order. -/
theorem start_windows_tmux (s r : String) (vp : Option String)
    (ws : List Window) :
    ∀ (i : Nat) (tr : List Action),
      start_windows s (some r) vp i ws = Except.ok tr →
      tmux_commands tr = spec_windows_commands vp r s i ws := by
  induction ws with
  | nil =>
    intro i tr h
    simp [start_windows, pure_eq_ok] at h
    subst h
    rfl
  | cons w ws ih =>
    intro i tr h
    simp only [start_windows] at h
    rw [except_bind_ok] at h
    obtain ⟨t, ht, h⟩ := h
    rw [except_bind_ok] at h
    obtain ⟨rest, hrest, h⟩ := h
    simp only [pure_eq_ok, Except.ok.injEq] at h
    subst h
    rw [tmux_commands_append, start_window_tmux s r vp i w t ht,
      ih (i + 1) rest hrest]
    rfl

/-- A fresh-session `start` run's multiplexer commands are exactly the
spec's ordered sequence (probe included). -/
theorem start_fresh_tmux_aux (cfg : Config) (ve : Bool) (s r : String)
    (ws : List Window) (tr : List Action) (hs : cfg.session_name = some s)
    (hr : cfg.project_root = some r) (hw : cfg.windows = some ws)
    (h : start cfg false ve = Except.ok tr) :
    tmux_commands tr =
      spec_session_commands cfg.virtualenv.isSome s r ws := by
  simp only [start] at h
  rw [except_bind_ok] at h
  obtain ⟨venv_acts, hven, h⟩ := h
  have hv0 : tmux_commands venv_acts = [] :=
    confirm_virtualenv_tmux_nil cfg false ve venv_acts hven
  rw [hs] at h
  simp only [getKey, ok_bind, rc_has_session, Bool.false_eq_true, if_false,
    rc_new_session] at h
  cases hv : cfg.virtualenv with
  | none =>
    rw [hv] at h
    simp only [Option.isSome_none, Bool.false_eq_true, if_false, ok_bind] at h
    rw [hw] at h
    simp only [getKey, ok_bind] at h
    rw [except_bind_ok] at h
    obtain ⟨w_acts, hwin, h⟩ := h
    rw [rc_attach, ok_bind] at h
    simp only [pure_eq_ok, Except.ok.injEq] at h
    subst h
    rw [hr] at hwin
    have hw1 := start_windows_tmux s r none ws 0 w_acts hwin
    simp [tmux_commands_append, tmux_commands_cons_tmux, tmux_commands_nil,
      hv0, hw1, spec_session_commands, activate_path]
  | some v =>
    rw [hv] at h
    simp only [Option.isSome_some, if_true, rc_set_environment, Except.map,
      ok_bind] at h
    rw [hw] at h
    simp only [getKey, ok_bind] at h
    rw [except_bind_ok] at h
    obtain ⟨w_acts, hwin, h⟩ := h
    rw [rc_attach, ok_bind] at h
    simp only [pure_eq_ok, Except.ok.injEq] at h
    subst h
    rw [hr] at hwin
    have hw1 := start_windows_tmux s r
      (some (pathJoin (pathJoin (pathJoin virtualenvs s) "bin") "activate"))
      ws 0 w_acts hwin
    simp [tmux_commands_append, tmux_commands_cons_tmux, tmux_commands_nil,
      hv0, hw1, spec_session_commands, activate_path]

/-- Claim C1 (amended): for a fresh session, `start` issues exactly the
spec's sequence of multiplexer commands — create, optional isolation
binding, per-window rename/create, splits, per-pane sends, optional
layout, select-pane, final attach, in that order — preceded by the
`has-session` probe the spec's formula omits, for a total of the claimed
formula plus one. -/
theorem start_fresh_command_count (cfg : Config) (ve : Bool) (s r : String)
    (ws : List Window) (tr : List Action) (hs : cfg.session_name = some s)
    (hr : cfg.project_root = some r) (hw : cfg.windows = some ws)
    (h : start cfg false ve = Except.ok tr) :
    tmux_commands tr = spec_session_commands cfg.virtualenv.isSome s r ws
    ∧ count_tmux tr = claim_count cfg + 1 :=
  ⟨start_fresh_tmux_aux cfg ve s r ws tr hs hr hw h,
   start_fresh_count_aux cfg ve tr h⟩

/-- The spec §8 demo scenario: one window `Main` with single pane `ls -l`,
no isolation, no layout. -/
def demoConfig : Config :=
  { session_name := some "demo"
    virtualenv := none
    project_root := some "$HOME"
    windows := some
      [{ name := "Main", layout := none, panes := some ["ls -l"] }] }

/-- Counterexample to C1 as stated: on the spec's own demo scenario the
code issues 7 multiplexer commands while the claimed formula evaluates to
6 — the formula omits the initial `has-session` probe. -/
theorem start_spec_count_counterexample :
    (start demoConfig false false).map count_tmux = Except.ok 7
    ∧ claim_count demoConfig = 6 :=
  ⟨rfl, rfl⟩

/-- Witness for the amended C1 on the demo scenario's concrete trace. -/
theorem start_fresh_command_count_witness :
    tmux_commands [Action.run ["tmux", "has-session", "-t", "demo"],
      Action.run ["tmux", "new-session", "-d", "-s", "demo"],
      Action.run ["tmux", "rename-window", "-t", "demo:0", "Main"],
      Action.run ["tmux", "send-keys", "-t", "demo:0.0", "cd $HOME", "ENTER"],
      Action.run ["tmux", "send-keys", "-t", "demo:0.0", "ls -l", "ENTER"],
      Action.run ["tmux", "select-pane", "-t", "demo:0.0"],
      Action.run ["tmux", "-2", "attach-session", "-t", "demo"]] =
      spec_session_commands false "demo" "$HOME"
        [{ name := "Main", layout := none, panes := some ["ls -l"] }]
    ∧ count_tmux [Action.run ["tmux", "has-session", "-t", "demo"],
      Action.run ["tmux", "new-session", "-d", "-s", "demo"],
      Action.run ["tmux", "rename-window", "-t", "demo:0", "Main"],
      Action.run ["tmux", "send-keys", "-t", "demo:0.0", "cd $HOME", "ENTER"],
      Action.run ["tmux", "send-keys", "-t", "demo:0.0", "ls -l", "ENTER"],
      Action.run ["tmux", "select-pane", "-t", "demo:0.0"],
      Action.run ["tmux", "-2", "attach-session", "-t", "demo"]] =
      claim_count demoConfig + 1 :=
  start_fresh_command_count demoConfig false "demo" "$HOME" _ _ rfl rfl rfl rfl

/-- Claim C2: when the session already exists, `start` issues exactly two
multiplexer commands — the `has-session` probe and a single attach — and
no new-session, window, or pane command. -/
theorem start_existing_session_short_circuit (cfg : Config) (s : String)
    (ve : Bool) (tr : List Action) (hs : cfg.session_name = some s)
    (h : start cfg true ve = Except.ok tr) :
    tmux_commands tr = [["tmux", "has-session", "-t", s],
      ["tmux", "-2", "attach-session", "-t", s]] := by
  simp only [start] at h
  rw [except_bind_ok] at h
  obtain ⟨venv_acts, hven, h⟩ := h
  rw [hs] at h
  simp only [getKey, ok_bind, rc_has_session, if_true, rc_attach,
    pure_eq_ok, Except.ok.injEq] at h
  subst h
  rw [tmux_commands_append, confirm_virtualenv_tmux_nil cfg false ve venv_acts hven]
  simp [tmux_commands]

/-- Witness for C2 at a concrete configuration. -/
theorem start_existing_session_short_circuit_witness :
    tmux_commands [Action.run ["tmux", "has-session", "-t", "s"],
      Action.prompt
        "Session already exists: attaching. (Press any key to continue.)",
      Action.run ["tmux", "-2", "attach-session", "-t", "s"]] =
      [["tmux", "has-session", "-t", "s"],
       ["tmux", "-2", "attach-session", "-t", "s"]] :=
  start_existing_session_short_circuit
    { session_name := some "s", virtualenv := none, project_root := none,
      windows := none } "s" false _ rfl rfl

/-- Claim C3 (amended): the code performs no session-name defaulting — a
configuration that lacks the `session name` key makes `start` raise
KeyError (for any probe result and directory state); the default of
"session name = environment name" exists only in the template that `edit`
writes. -/
theorem start_missing_session_name_raises (cfg : Config) (se ve : Bool)
    (h : cfg.session_name = none) :
    start cfg se ve = Except.error (PyError.keyError "session name") := by
  cases hv : cfg.virtualenv <;>
    simp [start, confirm_virtualenv, hv, h, getKey, Bind.bind, Except.bind,
      pure_eq_ok, rc_virtualenv]

/-- Counterexample to C3 as stated: with the `session name` key absent,
`start` does not succeed with a defaulted session name — it raises. -/
theorem start_missing_session_name_counterexample :
    start { session_name := none, virtualenv := none,
            project_root := some "~", windows := some [] } false false =
      Except.error (PyError.keyError "session name") := rfl

/-- Witness for the amended C3 at a concrete configuration with an
isolation block. -/
theorem start_missing_session_name_witness :
    start { session_name := none,
            virtualenv := some { python_binary := none, site_packages := none },
            project_root := none, windows := none } true true =
      Except.error (PyError.keyError "session name") :=
  start_missing_session_name_raises
    { session_name := none,
      virtualenv := some { python_binary := none, site_packages := none },
      project_root := none, windows := none } true true rfl

/-- Claim C7: the pane body sends the pane's command literally whenever the
string is non-empty — a whitespace-only command is sent — and omits the
send exactly for the empty string (untrimmed truthiness). -/
theorem pane_command_sent_iff_nonempty (r : String) (vp : Option String)
    (wt : String) (pi : Nat) (p : String) (tr : List Action)
    (h : start_pane (some r) vp wt pi p = Except.ok tr) :
    (Action.run ["tmux", "send-keys", "-t", wt ++ "." ++ toString pi, p,
      "ENTER"] ∈ tr ↔ p ≠ "") := by
  rw [start_pane_some] at h
  simp only [Except.ok.injEq] at h
  subst h
  have hcd : ("cd " ++ r) ≠ "" := append_ne_empty_left "cd " r (by decide)
  have hcd2 : ("" : String) ≠ ("cd " ++ r) := fun e => hcd e.symm
  constructor
  · intro hmem
    by_contra hp
    subst hp
    rcases vp with _ | v
    · by_cases hpi : pi = 0 <;>
        simp [hpi, hcd, hcd2] at hmem
    · have hsrc : ("source " ++ v) ≠ "" :=
        append_ne_empty_left "source " v (by decide)
      have hsrc2 : ("" : String) ≠ ("source " ++ v) := fun e => hsrc e.symm
      by_cases hpi : pi = 0 <;>
        simp [hpi, hcd, hcd2, hsrc, hsrc2] at hmem
  · intro hp
    simp [hp]

/-- Witness for C7: a whitespace-only pane command is sent literally. -/
theorem pane_command_sent_iff_nonempty_witness :
    Action.run ["tmux", "send-keys", "-t", "s:0.0", " ", "ENTER"] ∈
      [Action.run ["tmux", "send-keys", "-t", "s:0.0", "cd /r", "ENTER"],
       Action.run ["tmux", "send-keys", "-t", "s:0.0", " ", "ENTER"]] :=
  (pane_command_sent_iff_nonempty "/r" none "s:0" 0 " " _ rfl).mpr (by decide)

/-! ## The command executor claim -/

/-- Claim C4: `command_list` splits the template on single spaces before
substitution and formats each token independently, so the argument vector
has exactly one entry per space-separated segment, and a substitution value
containing a space stays inside one argument. -/
theorem command_list_splits_before_substitution :
    (∀ (template : String) (kw : List (String × String)) (args : List String),
        command_list template kw = some args →
        args.length = (splitOnSpace template.data).length)
    ∧ ∀ v : String, command_list "echo {message}" [("message", v)] =
        some ["echo", v] := by
  constructor
  · intro template kw args h
    exact mapOption_length (format_token kw) (splitOnSpace template.data) args h
  · intro v
    simp [command_list, splitOnSpace, format_token, fmtAux, lookupKw,
      mapOption, mkData]

/-- Witness for C4 on the source's own doctest example. -/
theorem command_list_splits_before_substitution_witness :
    (["echo", "Hello, world."] : List String).length =
      (splitOnSpace ("echo {message}".data)).length :=
  command_list_splits_before_substitution.1 "echo {message}"
    [("message", "Hello, world.")] ["echo", "Hello, world."] rfl

/-! ## The edit round-trip claim -/

set_option maxRecDepth 100000 in
/-- Claim C6: writing a fresh environment through `edit` produces the
template with the environment name substituted once (at `session name:`),
and resolving that file yields the template defaults: session name equal to
the environment name, project root the (shell-deferred) home directory
`$HOME`, and exactly the two windows `One` and `Two`. -/
theorem edit_template_roundtrip (env : String) :
    edit_written_content env =
      some ("# Shows up in \x27tmux list-sessions\x27 and on the left side of the status bar.\nsession name: "
        ++ env ++ "\n\n# Optional; if provided, the virtualenv activate script will be sourced in all\n# new windows and panes by setting tmux\x27s default-command option.\nvirtualenv:\n    python binary: /usr/bin/python\n    site packages?: false\n\n# When starting a tenper session, all windows and panes will be changed to this\n# directory.\nproject root: $HOME\n\nwindows:\n  - name: One\n    panes:\n      - ls -l\n\n  - name: Two\n    # Layout of the panes: even-horizontal, even-vertical, main-horizontal,\n    # main-vertical, or tiled. You can also specify the layout string in the\n    # list-windows command (see man tmux\x27s layout section).\n    layout: main-vertical\n    panes:\n        - ls\n        - vim\n        - top\n")
    ∧ (resolve_template env).session_name = some env
    ∧ (resolve_template env).project_root = some "$HOME"
    ∧ ((resolve_template env).windows.getD []).map Window.name =
        ["One", "Two"] :=
  ⟨rfl, rfl, rfl, rfl⟩

end Tenper
